import Mathlib

/-!
Shallow embedding of the `@skorotkiewicz/kvstore-client` TypeScript client
(`src/index.ts`).  JSON values are modelled by an inductive type; a JS object
literal such as `{action, dbName, storeName, ...params}` is modelled by the
list of its written entries, with JavaScript semantics recovered by
`lastLookup` (property access: last assignment wins) and `objNorm`
(the resulting object: keys in first-occurrence order, last value wins,
which is also what `JSON.stringify` serialises).  The `fetch` transport is a
function from the outbound request to an `ok` flag plus the parsed JSON body,
mirroring `response.ok` and `await response.json()`.  Property access on a
parsed body (`data.error`, `result.value`, ...) is modelled by `jsRead`,
which distinguishes the `TypeError` JavaScript throws when the body is
`null` and the `Array.prototype` methods an array body inherits.
-/

/-- A JSON value. -/
inductive JValue where
  | null : JValue
  | bool (b : Bool) : JValue
  | num (n : Int) : JValue
  | str (s : String) : JValue
  | arr (xs : List JValue) : JValue
  | obj (fields : List (String × JValue)) : JValue
deriving Repr

/-- JavaScript property read over an object literal's written entries:
the value of the LAST entry carrying the key, `none` when absent
(i.e. `undefined`). -/
def lastLookup (l : List (String × JValue)) (k : String) : Option JValue :=
  match l with
  | [] => none
  | (k', v) :: rest =>
      match lastLookup rest k with
      | some w => some w
      | none => if k' = k then some v else none

/-- Helper for `firstDedup`: drop keys already seen, keep first occurrences. -/
def firstDedupAux (seen : List String) : List String → List String
  | [] => []
  | k :: rest =>
      if k ∈ seen then firstDedupAux seen rest
      else k :: firstDedupAux (k :: seen) rest

/-- The keys of a JS object literal in the order the object ends up with:
first occurrence of each key. -/
def firstDedup (l : List String) : List String :=
  firstDedupAux [] l

/-- The object a JS object literal evaluates to (also the field list
`JSON.stringify` serialises): keys in first-occurrence order, each bound to
the last value written for it. -/
def objNorm (l : List (String × JValue)) : List (String × JValue) :=
  (firstDedup (l.map Prod.fst)).filterMap
    (fun k => (lastLookup l k).map (fun v => (k, v)))

/-- How a call into the client can fail: the `new Error(message)` thrown by
`_request` on a non-ok response, or the `TypeError` JavaScript raises when a
property of the named field is read off a `null` body. -/
inductive ClientError where
  | thrown (message : String) : ClientError
  | typeError (field : String) : ClientError
deriving DecidableEq, Repr

/-- The six field names the client ever reads off a parsed response body:
`data.error` in `_request`, and the per-method projections. -/
inductive RespField where
  | error : RespField
  | value : RespField
  | stores : RespField
  | values : RespField
  | keys : RespField
  | entries : RespField
deriving DecidableEq, Repr

/-- The property name each `RespField` stands for. -/
def RespField.name : RespField → String
  | .error => "error"
  | .value => "value"
  | .stores => "stores"
  | .values => "values"
  | .keys => "keys"
  | .entries => "entries"

/-- Of the six read field names, those that collide with an
`Array.prototype` method (inherited by an array-valued body). -/
def RespField.isArrayMethod : RespField → Bool
  | .keys => true
  | .values => true
  | .entries => true
  | _ => false

/-- What reading one of the six fields off a parsed JSON value yields:
`undefined`, an own-property JSON value, or an inherited
`Array.prototype` method. -/
inductive ReadResult where
  | undefined : ReadResult
  | val (v : JValue) : ReadResult
  | arrayMethod (name : String) : ReadResult

/-- JavaScript truthiness of a JSON value (for `data.error || "..."`):
`null`, `false`, `0` and `""` are falsy; arrays and objects are truthy. -/
def jsTruthy : JValue → Bool
  | .null => false
  | .bool b => b
  | .num n => n != 0
  | .str s => s != ""
  | .arr _ => true
  | .obj _ => true

mutual

/-- JavaScript `ToString` of a JSON value (the `Error` constructor coerces a
non-string message with it): arrays join their elements with commas (a
`null` element becoming empty), plain objects print "[object Object]". -/
def jsToString : JValue → String
  | .null => "null"
  | .bool b => if b then "true" else "false"
  | .num n => toString n
  | .str s => s
  | .arr xs => String.intercalate "," (jsToStringList xs)
  | .obj _ => "[object Object]"

/-- Element-wise `ToString` for `Array.prototype.join`, where a `null`
element converts to the empty string. -/
def jsToStringList : List JValue → List String
  | [] => []
  | .null :: rest => "" :: jsToStringList rest
  | v :: rest => jsToString v :: jsToStringList rest

end

/-- Reading one of the six fields off a parsed JSON body, as JavaScript
evaluates `body.<field>`: a `TypeError` on a `null` body; the own property
(or `undefined`) on an object — `Object.prototype` carries none of the six
names; an inherited `Array.prototype.keys/values/entries` method on an
array; `undefined` on the remaining primitives, whose boxed prototypes also
carry none of the six names. -/
def jsRead (j : JValue) (f : RespField) : Except ClientError ReadResult :=
  match j with
  | .null => .error (.typeError f.name)
  | .obj fields =>
      .ok (match lastLookup fields f.name with
           | some v => .val v
           | none => .undefined)
  | .arr _ => .ok (if f.isArrayMethod then .arrayMethod f.name else .undefined)
  | _ => .ok .undefined

/-- `KVStoreOptions` from src/index.ts. -/
structure KVStoreOptions where
  accessToken : String
  storeName : String
  dbName : String

/-- The `KVStore` class state: the four fields its constructor stores. -/
structure KVStore where
  apiUrl : String
  accessToken : String
  storeName : String
  dbName : String

/-- The `KVStore` constructor: stores all four values verbatim. -/
def KVStore.make (apiUrl : String) (options : KVStoreOptions) : KVStore :=
  { apiUrl := apiUrl
    accessToken := options.accessToken
    storeName := options.storeName
    dbName := options.dbName }

/-- The legacy factory function `store(apiUrl, options)` from src/index.ts:
`return new KVStore(apiUrl, options)`. -/
def store (apiUrl : String) (options : KVStoreOptions) : KVStore :=
  KVStore.make apiUrl options

/-- The outbound HTTP request `_request` issues: POST to `apiUrl` with a
bearer token and a JSON body (modelled as the literal's written entries). -/
structure Request where
  url : String
  authToken : String
  body : List (String × JValue)

/-- The transport-level response `_request` sees: `response.ok` and the
body parsed by `response.json()`. -/
structure HttpResponse where
  ok : Bool
  body : JValue

/-- The body literal `_request` builds:
`{action, dbName: this.dbName, storeName: this.storeName, ...params}`. -/
def KVStore.requestBody (c : KVStore) (action : String)
    (params : List (String × JValue)) : List (String × JValue) :=
  [("action", JValue.str action),
   ("dbName", JValue.str c.dbName),
   ("storeName", JValue.str c.storeName)] ++ params

/-- `_request`'s response handling: on `!response.ok` it evaluates
`throw new Error(data.error || "Request failed")` — reading `data.error`
raises a `TypeError` when the body is `null`; an absent or falsy (empty)
`error` gives the literal "Request failed"; a truthy `error` becomes the
message via `ToString`.  On an ok status the parsed body is returned
verbatim, untouched. -/
def handleResponse (resp : HttpResponse) : Except ClientError JValue :=
  if resp.ok then .ok resp.body
  else
    match jsRead resp.body RespField.error with
    | .error e => .error e
    | .ok .undefined => .error (.thrown "Request failed")
    | .ok (.val v) =>
        .error (.thrown (if jsTruthy v then jsToString v else "Request failed"))
    | .ok (.arrayMethod name) =>
        .error (.thrown ("function " ++ name ++ "() \x7b [native code] \x7d"))

/-- A `KVEntry` (`{key: string; value: any}`), the element type of
`setMany`'s argument. -/
structure KVEntry where
  key : String
  value : JValue

/-- The JSON object a `KVEntry` serialises to. -/
def KVEntry.toJValue (e : KVEntry) : JValue :=
  .obj [("key", .str e.key), ("value", e.value)]

/-- The public operations of `KVStore`, with their arguments.  `register`
and `login` take a form-data object (username/email/password plus arbitrary
extra fields, per the `[key: string]: any` index signature), modelled as the
object's field list. -/
inductive Op where
  | register (formData : List (String × JValue))
  | login (formData : List (String × JValue))
  | generateToken
  | getUserInfo
  | getDatabases
  | createDatabase (name : String)
  | createStore (dbName storeName : String)
  | set (key : String) (value : JValue)
  | get (key : String)
  | getStores (dbName : String)
  | setMany (entries : List KVEntry)
  | getMany (keys : List String)
  | update (key : String) (value : JValue)
  | delete (key : String)
  | deleteMany (keys : List String)
  | entries (dbName storeName : String)
  | keys
  | values
  | clear
  | deleteStore (dbName storeName : String)
  | deleteDatabase (dbName : String)

/-- The action string each method passes to `_request`. -/
def Op.action : Op → String
  | .register _ => "register"
  | .login _ => "login"
  | .generateToken => "generate-token"
  | .getUserInfo => "get-user-info"
  | .getDatabases => "get-databases"
  | .createDatabase _ => "create-database"
  | .createStore _ _ => "create-store"
  | .set _ _ => "set"
  | .get _ => "get"
  | .getStores _ => "get-stores"
  | .setMany _ => "setMany"
  | .getMany _ => "getMany"
  | .update _ _ => "update"
  | .delete _ => "delete"
  | .deleteMany _ => "deleteMany"
  | .entries _ _ => "entries"
  | .keys => "keys"
  | .values => "values"
  | .clear => "clear"
  | .deleteStore _ _ => "delete-store"
  | .deleteDatabase _ => "delete-database"

/-- The parameter mapping each method passes to `_request`.  `register` and
`login` pass the form-data object itself; `entries` first replaces a falsy
(empty-string) `dbName`/`storeName` argument by the client default
(`if (!dbName) dbName = this.dbName`); the no-argument methods use
`_request`'s default `{}`. -/
def Op.params (op : Op) (c : KVStore) : List (String × JValue) :=
  match op with
  | .register formData => formData
  | .login formData => formData
  | .generateToken => []
  | .getUserInfo => []
  | .getDatabases => []
  | .createDatabase name => [("name", .str name)]
  | .createStore dbName storeName =>
      [("dbName", .str dbName), ("storeName", .str storeName)]
  | .set key value => [("key", .str key), ("value", value)]
  | .get key => [("key", .str key)]
  | .getStores dbName => [("dbName", .str dbName)]
  | .setMany es => [("entries", .arr (es.map KVEntry.toJValue))]
  | .getMany ks => [("keys", .arr (ks.map JValue.str))]
  | .update key value => [("key", .str key), ("value", value)]
  | .delete key => [("key", .str key)]
  | .deleteMany ks => [("keys", .arr (ks.map JValue.str))]
  | .entries dbName storeName =>
      [("dbName", .str (if dbName = "" then c.dbName else dbName)),
       ("storeName", .str (if storeName = "" then c.storeName else storeName))]
  | .keys => []
  | .values => []
  | .clear => []
  | .deleteStore dbName storeName =>
      [("dbName", .str dbName), ("storeName", .str storeName)]
  | .deleteDatabase dbName => [("dbName", .str dbName)]

/-- The field a method projects out of the parsed success body
(`return result.value`, `return result.keys`, ...); `none` for methods that
return the raw response. -/
def Op.projectedField : Op → Option RespField
  | .get _ => some .value
  | .getStores _ => some .stores
  | .getMany _ => some .values
  | .entries _ _ => some .entries
  | .keys => some .keys
  | .values => some .values
  | _ => none

/-- What a method does with a success body: the raw-response methods resolve
with the parsed body itself; a projecting method evaluates the property read
`result.<field>`, which on a `null` body raises a `TypeError`. -/
def Op.project (op : Op) (body : JValue) : Except ClientError ReadResult :=
  match op.projectedField with
  | none => .ok (.val body)
  | some f => jsRead body f

/-- The single outbound request a method issues. -/
def KVStore.request (c : KVStore) (op : Op) : Request :=
  { url := c.apiUrl
    authToken := c.accessToken
    body := c.requestBody op.action (op.params c) }

/-- Running a method against a transport (the mocked `fetch`): issue the
request, handle the response, and on success apply the method's projection.
`Except.error` is the promise rejection, carrying the thrown error. -/
def KVStore.run (c : KVStore) (op : Op)
    (transport : Request → HttpResponse) : Except ClientError ReadResult :=
  match handleResponse (transport (c.request op)) with
  | .ok body => op.project body
  | .error e => .error e

/-- The action names the remote service recognizes: exactly those the
client's methods send. -/
def recognizedActions : List String :=
  ["register", "login", "generate-token", "get-user-info", "get-databases",
   "create-database", "create-store", "set", "get", "get-stores", "setMany",
   "getMany", "update", "delete", "deleteMany", "entries", "keys", "values",
   "clear", "delete-store", "delete-database"]

/-- The operations that pass an explicit `dbName` (and possibly `storeName`)
parameter, overriding the client defaults. -/
def Op.isNameOverriding : Op → Bool
  | .createStore _ _ => true
  | .getStores _ => true
  | .entries _ _ => true
  | .deleteStore _ _ => true
  | .deleteDatabase _ => true
  | _ => false

/-! ### Lemmas about the object-literal model -/

theorem lastLookup_append (l₁ l₂ : List (String × JValue)) (k : String) :
    lastLookup (l₁ ++ l₂) k = (lastLookup l₂ k).elim (lastLookup l₁ k) some := by
  induction l₁ with
  | nil =>
      simp only [List.nil_append, lastLookup]
      cases lastLookup l₂ k <;> rfl
  | cons hd tl ih =>
      obtain ⟨k', v⟩ := hd
      simp only [List.cons_append, lastLookup, List.append_eq]
      rw [ih]
      cases lastLookup l₂ k <;> rfl

theorem lastLookup_isSome_of_mem (l : List (String × JValue)) (k : String)
    (h : k ∈ l.map Prod.fst) : (lastLookup l k).isSome := by
  induction l with
  | nil => simp at h
  | cons hd tl ih =>
      obtain ⟨k', v⟩ := hd
      simp only [lastLookup]
      cases htl : lastLookup tl k with
      | some w => rfl
      | none =>
          simp only [List.map_cons, List.mem_cons] at h
          rcases h with h | h
          · simp [h]
          · have := ih h
            rw [htl] at this
            simp at this

theorem mem_of_mem_firstDedupAux (l : List String) :
    ∀ (seen : List String) (k : String), k ∈ firstDedupAux seen l → k ∈ l := by
  induction l with
  | nil => intro seen k h; simp [firstDedupAux] at h
  | cons hd tl ih =>
      intro seen k h
      simp only [firstDedupAux] at h
      by_cases hmem : hd ∈ seen
      · rw [if_pos hmem] at h
        exact List.mem_cons_of_mem _ (ih _ _ h)
      · rw [if_neg hmem] at h
        rcases List.mem_cons.mp h with h | h
        · exact h ▸ List.mem_cons_self _ _
        · exact List.mem_cons_of_mem _ (ih _ _ h)

theorem not_mem_firstDedupAux_of_mem_seen (l : List String) :
    ∀ (seen : List String) (k : String), k ∈ seen → k ∉ firstDedupAux seen l := by
  induction l with
  | nil => intro seen k _ h; simp [firstDedupAux] at h
  | cons hd tl ih =>
      intro seen k hk h
      simp only [firstDedupAux] at h
      by_cases hmem : hd ∈ seen
      · rw [if_pos hmem] at h
        exact ih _ _ hk h
      · rw [if_neg hmem] at h
        rcases List.mem_cons.mp h with h | h
        · exact hmem (h ▸ hk)
        · exact ih _ _ (List.mem_cons_of_mem _ hk) h

theorem nodup_firstDedupAux (l : List String) :
    ∀ seen : List String, (firstDedupAux seen l).Nodup := by
  induction l with
  | nil => intro seen; simp [firstDedupAux]
  | cons hd tl ih =>
      intro seen
      simp only [firstDedupAux]
      by_cases hmem : hd ∈ seen
      · rw [if_pos hmem]; exact ih _
      · rw [if_neg hmem]
        refine List.nodup_cons.mpr ⟨?_, ih _⟩
        exact not_mem_firstDedupAux_of_mem_seen _ _ _ (List.mem_cons_self _ _)

theorem mem_firstDedupAux_of_mem (l : List String) :
    ∀ (seen : List String) (k : String), k ∈ l → k ∉ seen →
      k ∈ firstDedupAux seen l := by
  induction l with
  | nil => intro seen k h; simp at h
  | cons hd tl ih =>
      intro seen k hk hseen
      simp only [firstDedupAux]
      by_cases hmem : hd ∈ seen
      · rw [if_pos hmem]
        rcases List.mem_cons.mp hk with h | h
        · exact absurd (h ▸ hmem) hseen
        · exact ih _ _ h hseen
      · rw [if_neg hmem]
        rcases List.mem_cons.mp hk with h | h
        · exact h ▸ List.mem_cons_self _ _
        · by_cases hk' : k = hd
          · exact hk' ▸ List.mem_cons_self _ _
          · refine List.mem_cons_of_mem _ (ih _ _ h ?_)
            simp only [List.mem_cons, not_or]
            exact ⟨hk', hseen⟩

theorem map_fst_filterMap_lookup (l : List (String × JValue)) :
    ∀ ks : List String, (∀ k ∈ ks, (lastLookup l k).isSome) →
      (ks.filterMap (fun k => (lastLookup l k).map (fun v => (k, v)))).map
          Prod.fst = ks := by
  intro ks
  induction ks with
  | nil => intro _; rfl
  | cons hd tl ih =>
      intro h
      have hhd : (lastLookup l hd).isSome := h hd (List.mem_cons_self _ _)
      rcases Option.isSome_iff_exists.mp hhd with ⟨v, hv⟩
      simp only [List.filterMap_cons, hv, Option.map_some', List.map_cons]
      rw [ih fun k hk => h k (List.mem_cons_of_mem _ hk)]

theorem objNorm_map_fst (l : List (String × JValue)) :
    (objNorm l).map Prod.fst = firstDedup (l.map Prod.fst) := by
  apply map_fst_filterMap_lookup
  intro k hk
  exact lastLookup_isSome_of_mem _ _ (mem_of_mem_firstDedupAux _ _ _ hk)

theorem count_firstDedup (l : List String) (k : String) (h : k ∈ l) :
    (firstDedup l).count k = 1 := by
  have hmem : k ∈ firstDedup l :=
    mem_firstDedupAux_of_mem _ _ _ h (List.not_mem_nil k)
  have hnd : (firstDedup l).Nodup := nodup_firstDedupAux _ _
  exact List.count_eq_one_of_mem hnd hmem

theorem requestBody_map_fst (c : KVStore) (a : String)
    (p : List (String × JValue)) :
    (c.requestBody a p).map Prod.fst =
      "action" :: "dbName" :: "storeName" :: p.map Prod.fst := by
  simp [KVStore.requestBody]

theorem requestBody_lookup_dbName (c : KVStore) (a : String)
    (p : List (String × JValue)) :
    lastLookup (c.requestBody a p) "dbName" =
      some ((lastLookup p "dbName").getD (JValue.str c.dbName)) := by
  rw [KVStore.requestBody, lastLookup_append]
  cases lastLookup p "dbName" <;> rfl

theorem requestBody_lookup_storeName (c : KVStore) (a : String)
    (p : List (String × JValue)) :
    lastLookup (c.requestBody a p) "storeName" =
      some ((lastLookup p "storeName").getD (JValue.str c.storeName)) := by
  rw [KVStore.requestBody, lastLookup_append]
  cases lastLookup p "storeName" <;> rfl

theorem requestBody_lookup_action (c : KVStore) (a : String)
    (p : List (String × JValue)) (h : lastLookup p "action" = none) :
    lastLookup (c.requestBody a p) "action" = some (JValue.str a) := by
  rw [KVStore.requestBody, lastLookup_append, h]
  rfl

/-! ### Claim theorems -/

/-- C1: for every action and supplied parameter mapping, the outbound body is
the object whose keys are, in order, `action`, `dbName`, `storeName`, then the
mapping's keys (first occurrence each); its `dbName`/`storeName` fields are
the mapping's entry when one is supplied and the client default otherwise,
and its `action` field is the given action whenever the mapping does not
carry an `action` entry. -/
theorem request_body_shape (c : KVStore) (a : String)
    (p : List (String × JValue)) :
    (objNorm (c.requestBody a p)).map Prod.fst =
      firstDedup ("action" :: "dbName" :: "storeName" :: p.map Prod.fst)
    ∧ lastLookup (c.requestBody a p) "dbName" =
        some ((lastLookup p "dbName").getD (JValue.str c.dbName))
    ∧ lastLookup (c.requestBody a p) "storeName" =
        some ((lastLookup p "storeName").getD (JValue.str c.storeName))
    ∧ (lastLookup p "action" = none →
        lastLookup (c.requestBody a p) "action" = some (JValue.str a)) := by
  refine ⟨?_, requestBody_lookup_dbName c a p,
    requestBody_lookup_storeName c a p, requestBody_lookup_action c a p⟩
  rw [objNorm_map_fst, requestBody_map_fst]

/-- Witness for C1 at a concrete client and mapping that overrides
`dbName`. -/
theorem request_body_shape_witness :
    (objNorm ((KVStore.make "u" ⟨"t", "s", "d"⟩).requestBody "set"
        [("key", JValue.str "k"), ("dbName", JValue.str "o")])).map Prod.fst =
      ["action", "dbName", "storeName", "key"]
    ∧ lastLookup ((KVStore.make "u" ⟨"t", "s", "d"⟩).requestBody "set"
        [("key", JValue.str "k"), ("dbName", JValue.str "o")]) "dbName" =
        some (JValue.str "o")
    ∧ lastLookup ((KVStore.make "u" ⟨"t", "s", "d"⟩).requestBody "set"
        [("key", JValue.str "k"), ("dbName", JValue.str "o")]) "storeName" =
        some (JValue.str "s")
    ∧ lastLookup ((KVStore.make "u" ⟨"t", "s", "d"⟩).requestBody "set"
        [("key", JValue.str "k"), ("dbName", JValue.str "o")]) "action" =
        some (JValue.str "set") := by
  have h := request_body_shape (KVStore.make "u" ⟨"t", "s", "d"⟩) "set"
    [("key", JValue.str "k"), ("dbName", JValue.str "o")]
  exact ⟨h.1, h.2.1, h.2.2.1, h.2.2.2 rfl⟩

/-- C2 counterexample: a failure response whose parsed body is JSON `null`
lacks an `error` field, so the claim demands the message "Request failed";
the program instead evaluates `data.error` on `null` and the operation
rejects with the resulting `TypeError`, not with a "Request failed"
message. -/
theorem failure_error_message_counterexample :
    (KVStore.make "u" ⟨"t", "s", "d"⟩).run Op.clear
        (fun _ => ⟨false, JValue.null⟩) =
      .error (.typeError "error")
    ∧ ClientError.typeError "error" ≠ ClientError.thrown "Request failed" :=
  ⟨rfl, by decide⟩

/-- C2 amended: whenever the transport reports failure and the parsed body
is a JSON object, every operation rejects with the body's `error` field as
message when it is present and non-empty, and with the literal
"Request failed" otherwise — in particular `{error: "X"}` yields "X" while
`{error: ""}` and an empty body `{}` yield "Request failed"; a failure
response whose parsed body is JSON `null` instead rejects with the
`TypeError` raised by reading its `error` field. -/
theorem failure_error_message (c : KVStore) (op : Op)
    (fields : List (String × JValue)) (s : String) :
    (lastLookup fields "error" = some (JValue.str s) →
       c.run op (fun _ => ⟨false, JValue.obj fields⟩) =
         .error (.thrown (if s = "" then "Request failed" else s)))
    ∧ (lastLookup fields "error" = none →
       c.run op (fun _ => ⟨false, JValue.obj fields⟩) =
         .error (.thrown "Request failed"))
    ∧ c.run op (fun _ => ⟨false, JValue.obj [("error", JValue.str "X")]⟩) =
        .error (.thrown "X")
    ∧ c.run op (fun _ => ⟨false, JValue.obj [("error", JValue.str "")]⟩) =
        .error (.thrown "Request failed")
    ∧ c.run op (fun _ => ⟨false, JValue.obj []⟩) =
        .error (.thrown "Request failed")
    ∧ c.run op (fun _ => ⟨false, JValue.null⟩) =
        .error (.typeError "error") := by
  refine ⟨?_, ?_, rfl, rfl, rfl, rfl⟩
  · intro h
    by_cases hs : s = "" <;>
      simp [KVStore.run, handleResponse, jsRead, RespField.name, h, hs,
        jsTruthy, jsToString]
  · intro h
    simp [KVStore.run, handleResponse, jsRead, RespField.name, h]

/-- Witness for amended C2: a concrete failure with body `{error: "W"}`
rejects with message "W". -/
theorem failure_error_message_witness :
    (KVStore.make "u" ⟨"t", "s", "d"⟩).run Op.clear
        (fun _ => ⟨false, JValue.obj [("error", JValue.str "W")]⟩) =
      .error (.thrown "W") :=
  (failure_error_message (KVStore.make "u" ⟨"t", "s", "d"⟩) Op.clear
    [("error", JValue.str "W")] "W").1 rfl

/-- C3 counterexample: on a success response whose parsed body is JSON
`null`, `get` does not return the body's `value` field — evaluating
`result.value` on `null` raises a `TypeError` and the promise rejects. -/
theorem success_projection_counterexample :
    (KVStore.make "u" ⟨"t", "s", "d"⟩).run (Op.get "k")
        (fun _ => ⟨true, JValue.null⟩) =
      .error (.typeError "value") :=
  rfl

/-- C3 amended: on every transport success response whose parsed body is a
JSON object (the response envelope shape), `get` resolves with exactly the
property read of the body's `value` field (undefined when absent), and
`keys`, `values`, `getMany`, `getStores`, `entries` resolve with exactly the
read of their single named field — never the whole envelope; a success
response whose parsed body is JSON `null` instead rejects with the
`TypeError` the projection raises. -/
theorem success_projection (c : KVStore) (fields : List (String × JValue))
    (key dbN stN : String) (ks : List String) :
    c.run (Op.get key) (fun _ => ⟨true, JValue.obj fields⟩) =
        jsRead (JValue.obj fields) RespField.value
    ∧ c.run Op.keys (fun _ => ⟨true, JValue.obj fields⟩) =
        jsRead (JValue.obj fields) RespField.keys
    ∧ c.run Op.values (fun _ => ⟨true, JValue.obj fields⟩) =
        jsRead (JValue.obj fields) RespField.values
    ∧ c.run (Op.getMany ks) (fun _ => ⟨true, JValue.obj fields⟩) =
        jsRead (JValue.obj fields) RespField.values
    ∧ c.run (Op.getStores dbN) (fun _ => ⟨true, JValue.obj fields⟩) =
        jsRead (JValue.obj fields) RespField.stores
    ∧ c.run (Op.entries dbN stN) (fun _ => ⟨true, JValue.obj fields⟩) =
        jsRead (JValue.obj fields) RespField.entries
    ∧ c.run (Op.get key) (fun _ => ⟨true, JValue.null⟩) =
        .error (.typeError "value") :=
  ⟨rfl, rfl, rfl, rfl, rfl, rfl, rfl⟩

/-- C4 counterexample: `register` is not one of the five excluded operations,
yet a form-data object carrying a `dbName` entry (allowed by the
`[key: string]: any` index signature) is spread over the defaults, so the
outbound `dbName` is "x", not the configured default "d". -/
theorem default_names_counterexample :
    (Op.register [("dbName", JValue.str "x")]).isNameOverriding = false
    ∧ (KVStore.make "u" ⟨"t", "s", "d"⟩).dbName = "d"
    ∧ lastLookup (((KVStore.make "u" ⟨"t", "s", "d"⟩).request
        (Op.register [("dbName", JValue.str "x")])).body) "dbName" =
        some (JValue.str "x")
    ∧ "x" ≠ "d" :=
  ⟨rfl, rfl, rfl, by decide⟩

/-- C4 amended: for every operation other than `createStore`, `getStores`,
`entries`, `deleteStore`, `deleteDatabase`, and whose supplied parameter
mapping (the form data, for `register`/`login`) carries no `dbName` or
`storeName` entry, the outbound body's `dbName` and `storeName` equal the
client's configured defaults. -/
theorem default_names_amended (c : KVStore) (op : Op)
    (_hover : op.isNameOverriding = false)
    (hdb : lastLookup (op.params c) "dbName" = none)
    (hst : lastLookup (op.params c) "storeName" = none) :
    lastLookup ((c.request op).body) "dbName" = some (JValue.str c.dbName)
    ∧ lastLookup ((c.request op).body) "storeName" =
        some (JValue.str c.storeName) := by
  constructor
  · show lastLookup (c.requestBody op.action (op.params c)) "dbName" = _
    rw [requestBody_lookup_dbName, hdb, Option.getD_none]
  · show lastLookup (c.requestBody op.action (op.params c)) "storeName" = _
    rw [requestBody_lookup_storeName, hst, Option.getD_none]

/-- Witness for amended C4 at a concrete `set` call. -/
theorem default_names_amended_witness :
    lastLookup (((KVStore.make "u" ⟨"t", "s", "d"⟩).request
        (Op.set "k" (JValue.str "v"))).body) "dbName" = some (JValue.str "d")
    ∧ lastLookup (((KVStore.make "u" ⟨"t", "s", "d"⟩).request
        (Op.set "k" (JValue.str "v"))).body) "storeName" =
        some (JValue.str "s") :=
  default_names_amended (KVStore.make "u" ⟨"t", "s", "d"⟩)
    (Op.set "k" (JValue.str "v")) rfl rfl rfl

/-- C5: the concrete scenario — a client for endpoint "https://x/connect"
with token "t", store "s" and database "d", on `createDatabase("newdb")`,
sends exactly
`{action: "create-database", dbName: "d", storeName: "s", name: "newdb"}`
with no other fields (the body literal and its evaluated object agree). -/
theorem createDatabase_scenario :
    (KVStore.make "https://x/connect" ⟨"t", "s", "d"⟩).request
        (Op.createDatabase "newdb") =
      ⟨"https://x/connect", "t",
       [("action", JValue.str "create-database"), ("dbName", JValue.str "d"),
        ("storeName", JValue.str "s"), ("name", JValue.str "newdb")]⟩
    ∧ objNorm (((KVStore.make "https://x/connect" ⟨"t", "s", "d"⟩).request
        (Op.createDatabase "newdb")).body) =
      [("action", JValue.str "create-database"), ("dbName", JValue.str "d"),
       ("storeName", JValue.str "s"), ("name", JValue.str "newdb")] :=
  ⟨rfl, rfl⟩

/-- C6: in `entries(dbName, storeName)` an empty-string (falsy) argument
falls back to the client's configured default, while a non-empty argument is
sent as given. -/
theorem entries_fallback (c : KVStore) (dbN stN : String) :
    (dbN = "" → lastLookup ((c.request (Op.entries dbN stN)).body) "dbName" =
        some (JValue.str c.dbName))
    ∧ (dbN ≠ "" → lastLookup ((c.request (Op.entries dbN stN)).body) "dbName" =
        some (JValue.str dbN))
    ∧ (stN = "" →
        lastLookup ((c.request (Op.entries dbN stN)).body) "storeName" =
          some (JValue.str c.storeName))
    ∧ (stN ≠ "" →
        lastLookup ((c.request (Op.entries dbN stN)).body) "storeName" =
          some (JValue.str stN)) := by
  refine ⟨?_, ?_, ?_, ?_⟩
  · intro h; subst h; rfl
  · intro h
    show some (JValue.str (if dbN = "" then c.dbName else dbN)) =
      some (JValue.str dbN)
    rw [if_neg h]
  · intro h; subst h; rfl
  · intro h
    show some (JValue.str (if stN = "" then c.storeName else stN)) =
      some (JValue.str stN)
    rw [if_neg h]

/-- Witness for C6 at `entries("", "x")`: the empty `dbName` falls back to
the default "d", the non-empty `storeName` "x" is sent as given. -/
theorem entries_fallback_witness :
    lastLookup (((KVStore.make "u" ⟨"t", "s", "d"⟩).request
        (Op.entries "" "x")).body) "dbName" = some (JValue.str "d")
    ∧ lastLookup (((KVStore.make "u" ⟨"t", "s", "d"⟩).request
        (Op.entries "" "x")).body) "storeName" = some (JValue.str "x") :=
  ⟨(entries_fallback (KVStore.make "u" ⟨"t", "s", "d"⟩) "" "x").1 rfl,
   (entries_fallback (KVStore.make "u" ⟨"t", "s", "d"⟩) "" "x").2.2.2
     (by decide)⟩

/-- C7 counterexample: a client configured with empty default names sends
them verbatim — the body's `dbName` and `storeName` are the empty string. -/
theorem nonempty_names_counterexample :
    lastLookup (((KVStore.make "u" ⟨"t", "", ""⟩).request Op.keys).body)
        "dbName" = some (JValue.str "")
    ∧ lastLookup (((KVStore.make "u" ⟨"t", "", ""⟩).request Op.keys).body)
        "storeName" = some (JValue.str "") :=
  ⟨rfl, rfl⟩

/-- C7 amended: the body's `dbName`/`storeName` fields are always present,
defaulted from the configuration when not supplied; they are non-empty
strings provided the configured defaults are non-empty and every explicitly
supplied `dbName`/`storeName` parameter is a non-empty string. -/
theorem nonempty_names_amended (c : KVStore) (op : Op)
    (hdb : c.dbName ≠ "") (hst : c.storeName ≠ "")
    (hpdb : ∀ v, lastLookup (op.params c) "dbName" = some v →
        ∃ s, v = JValue.str s ∧ s ≠ "")
    (hpst : ∀ v, lastLookup (op.params c) "storeName" = some v →
        ∃ s, v = JValue.str s ∧ s ≠ "") :
    ∃ s1 s2 : String, s1 ≠ "" ∧ s2 ≠ ""
      ∧ lastLookup ((c.request op).body) "dbName" = some (JValue.str s1)
      ∧ lastLookup ((c.request op).body) "storeName" =
          some (JValue.str s2) := by
  have h1 : lastLookup ((c.request op).body) "dbName" =
      some ((lastLookup (op.params c) "dbName").getD (JValue.str c.dbName)) :=
    requestBody_lookup_dbName c op.action (op.params c)
  have h2 : lastLookup ((c.request op).body) "storeName" =
      some ((lastLookup (op.params c) "storeName").getD
        (JValue.str c.storeName)) :=
    requestBody_lookup_storeName c op.action (op.params c)
  obtain ⟨s1, hs1eq, hs1ne⟩ :
      ∃ s1, (lastLookup (op.params c) "dbName").getD (JValue.str c.dbName) =
        JValue.str s1 ∧ s1 ≠ "" := by
    cases hv : lastLookup (op.params c) "dbName" with
    | none => exact ⟨c.dbName, rfl, hdb⟩
    | some v =>
        obtain ⟨s, hs, hne⟩ := hpdb v hv
        exact ⟨s, by simp [hs], hne⟩
  obtain ⟨s2, hs2eq, hs2ne⟩ :
      ∃ s2, (lastLookup (op.params c) "storeName").getD
          (JValue.str c.storeName) = JValue.str s2 ∧ s2 ≠ "" := by
    cases hv : lastLookup (op.params c) "storeName" with
    | none => exact ⟨c.storeName, rfl, hst⟩
    | some v =>
        obtain ⟨s, hs, hne⟩ := hpst v hv
        exact ⟨s, by simp [hs], hne⟩
  refine ⟨s1, s2, hs1ne, hs2ne, ?_, ?_⟩
  · rw [h1, hs1eq]
  · rw [h2, hs2eq]

/-- Witness for amended C7 at a concrete `clear` call with non-empty
defaults. -/
theorem nonempty_names_amended_witness :
    ∃ s1 s2 : String, s1 ≠ "" ∧ s2 ≠ ""
      ∧ lastLookup (((KVStore.make "u" ⟨"t", "s", "d"⟩).request
          Op.clear).body) "dbName" = some (JValue.str s1)
      ∧ lastLookup (((KVStore.make "u" ⟨"t", "s", "d"⟩).request
          Op.clear).body) "storeName" = some (JValue.str s2) :=
  nonempty_names_amended (KVStore.make "u" ⟨"t", "s", "d"⟩) Op.clear
    (by decide) (by decide)
    (fun v h => by simp [Op.params, lastLookup] at h)
    (fun v h => by simp [Op.params, lastLookup] at h)

/-- C8 counterexample: `register`'s form data may carry an `action` entry
(the `[key: string]: any` index signature allows it); it is spread over the
fixed `action` field, so the client sends the unrecognized action "evil". -/
theorem action_invariant_counterexample :
    lastLookup (((KVStore.make "u" ⟨"t", "s", "d"⟩).request
        (Op.register [("action", JValue.str "evil")])).body) "action" =
      some (JValue.str "evil")
    ∧ "evil" ∉ recognizedActions :=
  ⟨rfl, by decide⟩

/-- C8 amended: every outbound body carries exactly one `action` field; its
value is the operation's fixed, recognized, non-empty action name whenever
the supplied parameter mapping (the form data, for `register`/`login`)
carries no `action` entry — such an entry overrides the action sent. -/
theorem action_invariant_amended (c : KVStore) (op : Op)
    (h : lastLookup (op.params c) "action" = none) :
    lastLookup ((c.request op).body) "action" = some (JValue.str op.action)
    ∧ op.action ∈ recognizedActions
    ∧ op.action ≠ ""
    ∧ ((objNorm ((c.request op).body)).map Prod.fst).count "action" = 1 := by
  refine ⟨requestBody_lookup_action c op.action (op.params c) h, ?_, ?_, ?_⟩
  · cases op <;> simp only [Op.action] <;> decide
  · cases op <;> simp only [Op.action] <;> decide
  · have h1 : (objNorm ((c.request op).body)).map Prod.fst =
        firstDedup ("action" :: "dbName" :: "storeName" ::
          (op.params c).map Prod.fst) := by
      rw [objNorm_map_fst]
      show firstDedup ((c.requestBody op.action (op.params c)).map
        Prod.fst) = _
      rw [requestBody_map_fst]
    rw [h1]
    exact count_firstDedup _ _ (List.mem_cons_self _ _)

/-- Witness for amended C8 at a concrete `createDatabase` call. -/
theorem action_invariant_amended_witness :
    lastLookup (((KVStore.make "u" ⟨"t", "s", "d"⟩).request
        (Op.createDatabase "n")).body) "action" =
      some (JValue.str "create-database")
    ∧ "create-database" ∈ recognizedActions
    ∧ "create-database" ≠ ""
    ∧ ((objNorm (((KVStore.make "u" ⟨"t", "s", "d"⟩).request
        (Op.createDatabase "n")).body)).map Prod.fst).count "action" = 1 :=
  action_invariant_amended (KVStore.make "u" ⟨"t", "s", "d"⟩)
    (Op.createDatabase "n") rfl

/-- C9: the legacy factory `store(apiUrl, options)` is behaviorally
equivalent to the constructor — same stored configuration, and identical
requests and results for every operation against every transport. -/
theorem store_factory_equiv (apiUrl : String) (options : KVStoreOptions) :
    store apiUrl options = KVStore.make apiUrl options
    ∧ (∀ op : Op,
        (store apiUrl options).request op =
          (KVStore.make apiUrl options).request op)
    ∧ (∀ (op : Op) (transport : Request → HttpResponse),
        (store apiUrl options).run op transport =
          (KVStore.make apiUrl options).run op transport) :=
  ⟨rfl, fun _ => rfl, fun _ _ => rfl⟩

/-- C10 counterexample: JSON `null` is a well-formed success body lacking
the expected field, yet `keys()` does not resolve with an absent value —
reading `result.keys` off `null` raises a `TypeError` and the promise
rejects. -/
theorem success_missing_field_counterexample :
    (KVStore.make "u" ⟨"t", "s", "d"⟩).run Op.keys
        (fun _ => ⟨true, JValue.null⟩) =
      .error (.typeError "keys")
    ∧ (Except.error (ClientError.typeError "keys") ≠
        (Except.ok ReadResult.undefined : Except ClientError ReadResult)) :=
  ⟨rfl, fun h => Except.noConfusion h⟩

/-- C10 amended: on a transport success whose parsed body is a JSON object
lacking the expected named field, each projecting operation resolves
successfully with the absent (`undefined`) value and raises no error — the
client validates nothing about the response shape on success; a JSON `null`
success body instead makes the projection reject with a `TypeError`. -/
theorem success_missing_field (c : KVStore)
    (fields : List (String × JValue)) (key dbN stN : String)
    (ks : List String) :
    (lastLookup fields "value" = none →
      c.run (Op.get key) (fun _ => ⟨true, JValue.obj fields⟩) =
        .ok .undefined)
    ∧ (lastLookup fields "keys" = none →
      c.run Op.keys (fun _ => ⟨true, JValue.obj fields⟩) = .ok .undefined)
    ∧ (lastLookup fields "values" = none →
      c.run Op.values (fun _ => ⟨true, JValue.obj fields⟩) = .ok .undefined)
    ∧ (lastLookup fields "values" = none →
      c.run (Op.getMany ks) (fun _ => ⟨true, JValue.obj fields⟩) =
        .ok .undefined)
    ∧ (lastLookup fields "stores" = none →
      c.run (Op.getStores dbN) (fun _ => ⟨true, JValue.obj fields⟩) =
        .ok .undefined)
    ∧ (lastLookup fields "entries" = none →
      c.run (Op.entries dbN stN) (fun _ => ⟨true, JValue.obj fields⟩) =
        .ok .undefined) := by
  refine ⟨?_, ?_, ?_, ?_, ?_, ?_⟩ <;>
    (intro h;
     simp [KVStore.run, handleResponse, Op.project, Op.projectedField,
       jsRead, RespField.name, h])

/-- Witness for amended C10 at the body `{}` (a well-formed object with no
fields). -/
theorem success_missing_field_witness :
    (KVStore.make "u" ⟨"t", "s", "d"⟩).run (Op.get "k")
        (fun _ => ⟨true, JValue.obj []⟩) = .ok .undefined
    ∧ (KVStore.make "u" ⟨"t", "s", "d"⟩).run Op.keys
        (fun _ => ⟨true, JValue.obj []⟩) = .ok .undefined
    ∧ (KVStore.make "u" ⟨"t", "s", "d"⟩).run Op.values
        (fun _ => ⟨true, JValue.obj []⟩) = .ok .undefined
    ∧ (KVStore.make "u" ⟨"t", "s", "d"⟩).run (Op.getMany ["a"])
        (fun _ => ⟨true, JValue.obj []⟩) = .ok .undefined
    ∧ (KVStore.make "u" ⟨"t", "s", "d"⟩).run (Op.getStores "db")
        (fun _ => ⟨true, JValue.obj []⟩) = .ok .undefined
    ∧ (KVStore.make "u" ⟨"t", "s", "d"⟩).run (Op.entries "db" "st")
        (fun _ => ⟨true, JValue.obj []⟩) = .ok .undefined := by
  have h := success_missing_field (KVStore.make "u" ⟨"t", "s", "d"⟩)
    [] "k" "db" "st" ["a"]
  exact ⟨h.1 rfl, h.2.1 rfl, h.2.2.1 rfl, h.2.2.2.1 rfl, h.2.2.2.2.1 rfl,
    h.2.2.2.2.2 rfl⟩
